import Mathlib

/-!
Verification of the JobSeeker browser-extension popup controller.

The popup component (`App` in the extension frontend) holds three pieces of
state: the active tab's url/title (`tabInfo`), the user-entered `company`,
and a `statusMessage`.  On mount it queries the active tab (Initialize);
the form's submit handler runs `handleSaveOffer` (Capture), which
re-queries the active tab, injects a content script to read the page text,
builds a JSON payload and POSTs it to the Django backend.

The definitions below are a shallow embedding of that component.  Browser
primitives (tab query, script injection, fetch) are modelled as an
environment record holding the outcome each callback would deliver, and the
observable effects (state updates, payload construction, HTTP requests,
popup close) are collected in a result record.
-/

/-- The `tabInfo` state object: `{ url: '', title: '' }`. -/
structure TabInfo where
  url : String
  title : String
deriving DecidableEq, Repr

/-- A browser tab as reported by `chrome.tabs.query`: `id`, `url` and
`title` may each be absent. -/
structure Tab where
  id : Option Nat
  url : Option String
  title : Option String
deriving DecidableEq, Repr

/-- The popup component's state: `tabInfo`, `company`, `statusMessage`. -/
structure PopupState where
  tabInfo : TabInfo
  company : String
  statusMessage : String
deriving DecidableEq, Repr

/-- The initial state from the `useState` initializers:
`{ url: '', title: '' }`, `''`, `''`. -/
def initialPopupState : PopupState :=
  { tabInfo := { url := "", title := "" }, company := "", statusMessage := "" }

/-- The payload `offerData` built by `handleSaveOffer`. -/
structure JobCapturePayload where
  title : String
  original_url : String
  company : String
  description : String
deriving DecidableEq, Repr

/-- Outcome of the `chrome.scripting.executeScript` callback: `failure`
covers `chrome.runtime.lastError`, a missing `injectionResults` array and
an empty one; `success` carries `injectionResults[0].result`, the page's
`document.body.innerText`. -/
inductive InjectionOutcome where
  | failure
  | success (text : String)
deriving DecidableEq, Repr

/-- Outcome of the `fetch` call: `networkError` is a rejected promise
(request never completes); `response` carries the HTTP status, the
`statusText`, and the `id` field of the parsed JSON body. -/
inductive FetchOutcome where
  | networkError
  | response (status : Nat) (statusText : String) (bodyId : Int)
deriving DecidableEq, Repr

/-- The ambient browser environment consulted during one Capture run:
the re-queried active tab (`tabs[0]` of `chrome.tabs.query`), the script
injection outcome, and the fetch outcome. -/
structure CaptureEnv where
  activeTab : Option Tab
  injection : InjectionOutcome
  fetchOutcome : FetchOutcome
deriving DecidableEq, Repr

/-- An HTTP request as issued by `fetch(url, { method, headers, body })`. -/
structure HttpRequest where
  url : String
  method : String
  contentType : String
  body : String
deriving DecidableEq, Repr

/-- Everything observable about one `handleSaveOffer` run: the final popup
state, the payloads constructed, the HTTP requests issued, whether
`window.close()` ran, and whether script injection was attempted. -/
structure CaptureResult where
  state : PopupState
  payloads : List JobCapturePayload
  requests : List HttpRequest
  popupClosed : Bool
  injectionAttempted : Bool
deriving DecidableEq, Repr

/-- `'Error: No se pudo extraer la descripción de la página.'` -/
def extractionErrorMessage : String :=
  "Error: No se pudo extraer la descripción de la página."

/-- `'Error al guardar. ¿El servidor Django está activo?'` — the message
set by the single `.catch` handler of the fetch chain. -/
def saveErrorMessage : String :=
  "Error al guardar. ¿El servidor Django está activo?"

/-- The success template `¡Oferta guardada con éxito! (ID: ${data.id})`. -/
def successMessage (bodyId : Int) : String :=
  s!"¡Oferta guardada con éxito! (ID: {bodyId})"

/-- The `Error` message built on a non-ok response,
`Error en la solicitud: ${response.statusText}`; it reaches only
`console.error`, never `statusMessage`. -/
def requestErrorText (statusText : String) : String :=
  s!"Error en la solicitud: {statusText}"

/-- The fixed ingest URL. -/
def ingestUrl : String := "http://127.0.0.1:8000/api/job_postings/analyze/"

/-- JavaScript truthiness of `activeTab.id`: `!activeTab.id` is true when
the id is `undefined` or `0`. -/
def tabIdUsable : Option Nat → Bool
  | none => false
  | some 0 => false
  | some (_ + 1) => true

/-- `Response.ok`: status in the inclusive range 200–299. -/
def responseOk (status : Nat) : Bool :=
  decide (200 ≤ status) && decide (status ≤ 299)

/-- String-value escaping as performed by `JSON.stringify`. -/
def jsonEscapeChar : Char → String
  | '\"' => "\\\""
  | '\\' => "\\\\"
  | '\n' => "\\n"
  | '\t' => "\\t"
  | '\r' => "\\r"
  | c => String.singleton c

/-- Escape a whole string for inclusion in a JSON document. -/
def jsonEscape (s : String) : String :=
  s.data.foldl (fun acc c => acc ++ jsonEscapeChar c) ""

/-- `JSON.stringify(offerData)` for the four-field payload object, fields
in the source's insertion order. -/
def encodePayload (p : JobCapturePayload) : String :=
  "\x7b\"title\":\"" ++ jsonEscape p.title ++
  "\",\"original_url\":\"" ++ jsonEscape p.original_url ++
  "\",\"company\":\"" ++ jsonEscape p.company ++
  "\",\"description\":\"" ++ jsonEscape p.description ++ "\"\x7d"

/-- A run that touches nothing: state unchanged, no payload, no request,
popup open, no injection. -/
def silentAbort (s : PopupState) : CaptureResult :=
  { state := s, payloads := [], requests := [], popupClosed := false,
    injectionAttempted := false }

/-- `handleSaveOffer` (the Capture operation), embedded step by step:
re-query the active tab and return silently unless a tab with a truthy id
exists; inject the content script, and on failure set the extraction error
message and stop; otherwise build `offerData` from the popup state
(`tabInfo.title`, `tabInfo.url`, `company`) plus the extracted text, POST
its JSON encoding to the fixed URL, and dispatch on the fetch outcome:
success message plus `window.close()` on an ok response, and the generic
`saveErrorMessage` from the shared `.catch` both when the response is
non-ok (the thrown `requestErrorText` is only logged) and when the fetch
rejects. -/
def handleSaveOffer (s : PopupState) (env : CaptureEnv) : CaptureResult :=
  match env.activeTab with
  | none => silentAbort s
  | some activeTab =>
    if tabIdUsable activeTab.id then
      match env.injection with
      | .failure =>
        { state := { s with statusMessage := extractionErrorMessage },
          payloads := [], requests := [], popupClosed := false,
          injectionAttempted := true }
      | .success description =>
        let offerData : JobCapturePayload :=
          { title := s.tabInfo.title, original_url := s.tabInfo.url,
            company := s.company, description := description }
        let req : HttpRequest :=
          { url := ingestUrl, method := "POST",
            contentType := "application/json", body := encodePayload offerData }
        match env.fetchOutcome with
        | .networkError =>
          { state := { s with statusMessage := saveErrorMessage },
            payloads := [offerData], requests := [req], popupClosed := false,
            injectionAttempted := true }
        | .response status _statusText bodyId =>
          if responseOk status then
            { state := { s with statusMessage := successMessage bodyId },
              payloads := [offerData], requests := [req], popupClosed := true,
              injectionAttempted := true }
          else
            { state := { s with statusMessage := saveErrorMessage },
              payloads := [offerData], requests := [req], popupClosed := false,
              injectionAttempted := true }
    else silentAbort s

/-- The form's submit path: the company input carries the HTML `required`
attribute, so the browser rejects submission while `company` is empty and
`handleSaveOffer` only runs otherwise. -/
def submitForm (s : PopupState) (env : CaptureEnv) : CaptureResult :=
  if s.company = "" then silentAbort s
  else handleSaveOffer s env

/-- The `useEffect` initializer (Initialize): query the active tab; when
one is reported, set `tabInfo` to its url/title with `|| ''` defaults;
otherwise leave the state untouched. -/
def initializeState (queried : Option Tab) (s : PopupState) : PopupState :=
  match queried with
  | none => s
  | some tab =>
    { s with tabInfo := { url := tab.url.getD "", title := tab.title.getD "" } }

/-- Whether `pat` occurs as a contiguous run somewhere in `s`. -/
def hasSubstrAux (pat : List Char) : List Char → Bool
  | [] => pat.isEmpty
  | c :: rest => List.isPrefixOf pat (c :: rest) || hasSubstrAux pat rest

/-- Substring test used to state the "message contains ..." claims. -/
def hasSubstr (s pat : String) : Bool :=
  hasSubstrAux pat.data s.data

/-- Fixture state from the spec's success-path example: popup opened on the
Acme job page, user typed the company. -/
def exState : PopupState :=
  { tabInfo := { url := "https://acme.example/jobs/42",
                 title := "Backend Engineer - Acme" },
    company := "Acme", statusMessage := "" }

/-- Fixture tab matching `exState`, re-queried unchanged at capture time. -/
def exTab : Tab :=
  { id := some 1, url := some "https://acme.example/jobs/42",
    title := some "Backend Engineer - Acme" }

/-- Fixture state whose `tabInfo` was recorded at popup open on one page. -/
def staleState : PopupState :=
  { tabInfo := { url := "https://old.example/a", title := "Old Title" },
    company := "Acme", statusMessage := "" }

/-- Fixture tab the user switched to before pressing save: different url
and title from `staleState.tabInfo`. -/
def switchedTab : Tab :=
  { id := some 2, url := some "https://new.example/b", title := some "New Title" }

example : hasSubstr "abcdef" "cde" = true := by decide
example : hasSubstr "abcdef" "xyz" = false := by decide
example : encodePayload { title := "T", original_url := "u", company := "c", description := "d\"x" }
    = "\x7b\"title\":\"T\",\"original_url\":\"u\",\"company\":\"c\",\"description\":\"d\\\"x\"\x7d" := by decide

/-- C7: when the re-queried active tab is absent or has no id,
`handleSaveOffer` aborts silently: no injection, no request, no payload,
the popup stays open and the whole state (statusMessage included) is
unchanged. -/
theorem capture_no_tab_silent_abort (s : PopupState) (env : CaptureEnv)
    (h : env.activeTab = none ∨ ∃ t, env.activeTab = some t ∧ t.id = none) :
    (handleSaveOffer s env).state = s ∧
    (handleSaveOffer s env).injectionAttempted = false ∧
    (handleSaveOffer s env).requests = [] ∧
    (handleSaveOffer s env).payloads = [] ∧
    (handleSaveOffer s env).popupClosed = false := by
  rcases env with ⟨tab, inj, fo⟩
  rcases h with h | ⟨t, ht, hid⟩
  · simp only at h
    subst h
    simp [handleSaveOffer, silentAbort]
  · simp only at ht
    subst ht
    simp [handleSaveOffer, silentAbort, hid, tabIdUsable]

/-- C7 witness: concrete run with no active tab. -/
theorem capture_no_tab_silent_abort_witness :
    (handleSaveOffer exState ⟨none, .failure, .networkError⟩).state = exState ∧
    (handleSaveOffer exState ⟨none, .failure, .networkError⟩).injectionAttempted = false ∧
    (handleSaveOffer exState ⟨none, .failure, .networkError⟩).requests = [] ∧
    (handleSaveOffer exState ⟨none, .failure, .networkError⟩).payloads = [] ∧
    (handleSaveOffer exState ⟨none, .failure, .networkError⟩).popupClosed = false :=
  capture_no_tab_silent_abort exState ⟨none, .failure, .networkError⟩ (Or.inl rfl)

/-- C6: when script injection fails (runtime error, missing or empty
result array), no payload is built and no HTTP request is issued; the
status message becomes the extraction-specific error and the run stops
with the popup open. -/
theorem capture_extraction_failure_no_request (s : PopupState) (tab : Tab)
    (n : Nat) (fo : FetchOutcome) (hid : tab.id = some (n + 1)) :
    handleSaveOffer s ⟨some tab, .failure, fo⟩ =
      { state := { s with statusMessage := extractionErrorMessage },
        payloads := [], requests := [], popupClosed := false,
        injectionAttempted := true } := by
  simp [handleSaveOffer, hid, tabIdUsable]

/-- C6 witness: concrete run with a failing extractor. -/
theorem capture_extraction_failure_no_request_witness :
    handleSaveOffer exState ⟨some exTab, .failure, .networkError⟩ =
      { state := { exState with statusMessage := extractionErrorMessage },
        payloads := [], requests := [], popupClosed := false,
        injectionAttempted := true } :=
  capture_extraction_failure_no_request exState exTab 0 .networkError rfl

/-- C5: on a 2xx response the (parsed) body's `id` drives the status
message — the message is literally the success template with the id
embedded — and the popup is closed. -/
theorem capture_http_success_id_message_and_close (s : PopupState) (tab : Tab)
    (n : Nat) (text : String) (status : Nat) (stext : String) (bodyId : Int)
    (hid : tab.id = some (n + 1)) (hok : responseOk status = true) :
    (handleSaveOffer s ⟨some tab, .success text, .response status stext bodyId⟩).state.statusMessage
      = "¡Oferta guardada con éxito! (ID: " ++ toString bodyId ++ ")" ∧
    (handleSaveOffer s ⟨some tab, .success text, .response status stext bodyId⟩).popupClosed
      = true := by
  simp [handleSaveOffer, hid, tabIdUsable, hok, successMessage]
  rfl

/-- C5 witness: response status 200 with body id 7; the message contains
`7` and the popup closes. -/
theorem capture_http_success_id_message_and_close_witness :
    ((handleSaveOffer exState ⟨some exTab, .success "Full job description...", .response 200 "OK" 7⟩).state.statusMessage
      = "¡Oferta guardada con éxito! (ID: " ++ toString (7 : Int) ++ ")" ∧
    (handleSaveOffer exState ⟨some exTab, .success "Full job description...", .response 200 "OK" 7⟩).popupClosed
      = true) ∧
    hasSubstr ("¡Oferta guardada con éxito! (ID: " ++ toString (7 : Int) ++ ")") "7" = true :=
  ⟨capture_http_success_id_message_and_close exState exTab 0
      "Full job description..." 200 "OK" 7 rfl (by decide),
   by decide⟩

/-- C8: whenever Capture reaches the network step (usable tab, successful
extraction), exactly one HTTP request is issued, a POST to the fixed
ingest URL with the JSON content type and the JSON-encoded payload as
body — whatever the fetch outcome. -/
theorem capture_single_post_request (s : PopupState) (tab : Tab) (n : Nat)
    (text : String) (fo : FetchOutcome) (hid : tab.id = some (n + 1)) :
    (handleSaveOffer s ⟨some tab, .success text, fo⟩).requests =
      [{ url := "http://127.0.0.1:8000/api/job_postings/analyze/",
         method := "POST", contentType := "application/json",
         body := encodePayload
           { title := s.tabInfo.title, original_url := s.tabInfo.url,
             company := s.company, description := text } }] := by
  cases fo with
  | networkError => simp [handleSaveOffer, hid, tabIdUsable, ingestUrl]
  | response status stext bodyId =>
    by_cases hok : responseOk status <;>
      simp [handleSaveOffer, hid, tabIdUsable, ingestUrl, hok]

/-- C8 witness: concrete run reaching the network step. -/
theorem capture_single_post_request_witness :
    (handleSaveOffer exState ⟨some exTab, .success "Full job description...", .response 200 "OK" 7⟩).requests =
      [{ url := "http://127.0.0.1:8000/api/job_postings/analyze/",
         method := "POST", contentType := "application/json",
         body := encodePayload
           { title := exState.tabInfo.title, original_url := exState.tabInfo.url,
             company := exState.company, description := "Full job description..." } }] :=
  capture_single_post_request exState exTab 0 "Full job description..."
    (.response 200 "OK" 7) rfl

/-- C10: over every environment (no tab, bad id, extraction failure, ok
response, error response, rejected fetch), `handleSaveOffer` leaves
`tabInfo` and `company` untouched — `statusMessage` is the only state
field it ever writes. -/
theorem capture_only_writes_status_message (s : PopupState) (env : CaptureEnv) :
    (handleSaveOffer s env).state.tabInfo = s.tabInfo ∧
    (handleSaveOffer s env).state.company = s.company := by
  rcases env with ⟨tab, inj, fo⟩
  cases tab with
  | none => exact ⟨rfl, rfl⟩
  | some t =>
    by_cases hid : tabIdUsable t.id
    · cases inj with
      | failure => simp [handleSaveOffer, hid]
      | success text =>
        cases fo with
        | networkError => simp [handleSaveOffer, hid]
        | response status stext bodyId =>
          by_cases hok : responseOk status <;> simp [handleSaveOffer, hid, hok]
    · simp [handleSaveOffer, hid, silentAbort]

/-- C9: Initialize is an idempotent read — repeating it against the same
queried tab does not change `tabInfo` — it never touches `statusMessage`
(no error reporting), a missing active tab leaves the initial empty
strings in place, and a tab lacking url/title yields empty strings. -/
theorem initialize_idempotent_and_defaults (t : Option Tab) (s : PopupState) :
    (initializeState t (initializeState t s)).tabInfo = (initializeState t s).tabInfo ∧
    (initializeState t s).statusMessage = s.statusMessage ∧
    (initializeState none initialPopupState).tabInfo = { url := "", title := "" } ∧
    (∀ i : Option Nat, (initializeState (some ⟨i, none, none⟩) s).tabInfo
        = { url := "", title := "" }) := by
  cases t with
  | none => exact ⟨rfl, rfl, rfl, fun _ => rfl⟩
  | some tab => exact ⟨rfl, rfl, rfl, fun _ => rfl⟩

/-- C4: the company input carries the HTML `required` attribute, so with
`company` empty the form submission is rejected by the browser before
`handleSaveOffer` runs: no request, no injection, state untouched. -/
theorem submit_empty_company_no_request (s : PopupState) (env : CaptureEnv)
    (h : s.company = "") :
    (submitForm s env).requests = [] ∧
    (submitForm s env).injectionAttempted = false ∧
    (submitForm s env).state = s := by
  simp [submitForm, h, silentAbort]

/-- C4 witness: submitting the initial state (empty company). -/
theorem submit_empty_company_no_request_witness :
    (submitForm initialPopupState ⟨some exTab, .success "x", .response 200 "OK" 1⟩).requests = [] ∧
    (submitForm initialPopupState ⟨some exTab, .success "x", .response 200 "OK" 1⟩).injectionAttempted = false ∧
    (submitForm initialPopupState ⟨some exTab, .success "x", .response 200 "OK" 1⟩).state = initialPopupState :=
  submit_empty_company_no_request initialPopupState
    ⟨some exTab, .success "x", .response 200 "OK" 1⟩ rfl

/-- C1 counterexample: a 500 response with statusText
`"Internal Server Error"` yields a status message that does NOT contain
the status text — the shared `.catch` overwrites the thrown error with the
generic save-failure message (the popup does stay open). -/
theorem capture_http_error_message_lacks_status_text :
    (handleSaveOffer exState
        ⟨some exTab, .success "Full job description...",
          .response 500 "Internal Server Error" 0⟩).state.statusMessage
      = saveErrorMessage ∧
    hasSubstr (handleSaveOffer exState
        ⟨some exTab, .success "Full job description...",
          .response 500 "Internal Server Error" 0⟩).state.statusMessage
      "Internal Server Error" = false ∧
    (handleSaveOffer exState
        ⟨some exTab, .success "Full job description...",
          .response 500 "Internal Server Error" 0⟩).popupClosed = false := by
  refine ⟨rfl, by decide, rfl⟩

/-- C1 amended: on any non-2xx response the status message is set to the
generic save-failure string (the status text only reaches the console via
the thrown `requestErrorText`), and the popup is not closed. -/
theorem capture_http_failure_generic_message (s : PopupState) (tab : Tab)
    (n : Nat) (text : String) (status : Nat) (stext : String) (bodyId : Int)
    (hid : tab.id = some (n + 1)) (hok : responseOk status = false) :
    (handleSaveOffer s ⟨some tab, .success text, .response status stext bodyId⟩).state.statusMessage
      = saveErrorMessage ∧
    (handleSaveOffer s ⟨some tab, .success text, .response status stext bodyId⟩).popupClosed
      = false := by
  simp [handleSaveOffer, hid, tabIdUsable, hok]

/-- C1 amended witness: the 500 / "Internal Server Error" run. -/
theorem capture_http_failure_generic_message_witness :
    (handleSaveOffer exState
        ⟨some exTab, .success "Full job description...",
          .response 500 "Internal Server Error" 0⟩).state.statusMessage
      = saveErrorMessage ∧
    (handleSaveOffer exState
        ⟨some exTab, .success "Full job description...",
          .response 500 "Internal Server Error" 0⟩).popupClosed = false :=
  capture_http_failure_generic_message exState exTab 0
    "Full job description..." 500 "Internal Server Error" 0 rfl (by decide)

/-- C2 counterexample: the message set on a rejected fetch equals — it is
not distinct from — the message set on a completed non-2xx response: both
come from the one `.catch` handler. -/
theorem capture_network_and_http_messages_coincide :
    (handleSaveOffer exState
        ⟨some exTab, .success "Full job description...", .networkError⟩).state.statusMessage
      = (handleSaveOffer exState
        ⟨some exTab, .success "Full job description...",
          .response 500 "Internal Server Error" 0⟩).state.statusMessage := rfl

/-- C2 amended: a rejected network call sets the generic
server-unreachable message `saveErrorMessage`, which is the very string
the HTTP-failure path also sets (shared catch handler), hence not
distinct from it. -/
theorem capture_network_failure_generic_message (s : PopupState) (tab : Tab)
    (n : Nat) (text : String) (status : Nat) (stext : String) (bodyId : Int)
    (hid : tab.id = some (n + 1)) (hok : responseOk status = false) :
    (handleSaveOffer s ⟨some tab, .success text, .networkError⟩).state.statusMessage
      = saveErrorMessage ∧
    (handleSaveOffer s ⟨some tab, .success text, .response status stext bodyId⟩).state.statusMessage
      = saveErrorMessage := by
  simp [handleSaveOffer, hid, tabIdUsable, hok]

/-- C2 amended witness: rejected fetch and 500 response on the fixture. -/
theorem capture_network_failure_generic_message_witness :
    (handleSaveOffer exState
        ⟨some exTab, .success "Full job description...", .networkError⟩).state.statusMessage
      = saveErrorMessage ∧
    (handleSaveOffer exState
        ⟨some exTab, .success "Full job description...",
          .response 500 "Internal Server Error" 0⟩).state.statusMessage
      = saveErrorMessage :=
  capture_network_failure_generic_message exState exTab 0
    "Full job description..." 500 "Internal Server Error" 0 rfl (by decide)

/-- C3 counterexample: with the popup opened on one page
(`staleState.tabInfo`) and the user switched to `switchedTab` before
saving, the payload's title/url are the popup-open values, not the
re-queried tab's — Capture only uses the re-query for the tab id. -/
theorem capture_payload_ignores_requeried_tab :
    (handleSaveOffer staleState
        ⟨some switchedTab, .success "body text", .networkError⟩).payloads.map
      JobCapturePayload.title = ["Old Title"] ∧
    ¬ ((handleSaveOffer staleState
        ⟨some switchedTab, .success "body text", .networkError⟩).payloads.map
      JobCapturePayload.title = [switchedTab.title.getD ""]) ∧
    ¬ ((handleSaveOffer staleState
        ⟨some switchedTab, .success "body text", .networkError⟩).payloads.map
      JobCapturePayload.original_url = [switchedTab.url.getD ""]) := by
  refine ⟨rfl, by decide, by decide⟩

/-- C3 amended: the payload built on extractor success takes `title` and
`original_url` from the `tabInfo` recorded in popup state at
initialization (popup open), `company` from the user-entered state and
`description` from the extracted text; the capture-time re-query does not
feed the payload. -/
theorem capture_payload_from_popup_state (s : PopupState) (tab : Tab)
    (n : Nat) (text : String) (fo : FetchOutcome)
    (hid : tab.id = some (n + 1)) :
    (handleSaveOffer s ⟨some tab, .success text, fo⟩).payloads =
      [{ title := s.tabInfo.title, original_url := s.tabInfo.url,
         company := s.company, description := text }] := by
  cases fo with
  | networkError => simp [handleSaveOffer, hid, tabIdUsable]
  | response status stext bodyId =>
    by_cases hok : responseOk status <;>
      simp [handleSaveOffer, hid, tabIdUsable, hok]

/-- C3 amended witness: the stale-tab run builds the payload from the
popup state. -/
theorem capture_payload_from_popup_state_witness :
    (handleSaveOffer staleState
        ⟨some switchedTab, .success "body text", .networkError⟩).payloads =
      [{ title := staleState.tabInfo.title,
         original_url := staleState.tabInfo.url,
         company := staleState.company, description := "body text" }] :=
  capture_payload_from_popup_state staleState switchedTab 1 "body text"
    .networkError rfl
